import Mathlib

/-!
Verification development for the py-home-gallery media indexing and thumbnail
pipeline.  The Python sources are shallowly embedded: pure string computations
become Lean functions, filesystem and library effects become explicit state
passing over a filesystem record plus outcome oracles, and Python exceptions
become `Except` values.  Time stamps (`time.time()`) are modelled as rationals.
-/

/-! ## Python string / path primitives used by the sources -/

/-- A Python exception, at the granularity the embedded code distinguishes. -/
inductive PyError
  | valueError
  | typeError
  | permissionError
  | osError
  deriving DecidableEq, Repr

/-- Last index of character `c` in `cs`, like Python `str.rfind` (restricted
to single-character needles), `none` standing for `-1`. -/
def rfindChar (cs : List Char) (c : Char) : Option Nat :=
  match cs.reverse.indexOf? c with
  | some k => some (cs.length - 1 - k)
  | none => none

/-- The extension part of CPython `posixpath.splitext` (`genericpath._splitext`
with `sep = '/'`, `extsep = '.'`): the suffix from the last dot, provided that
dot lies after the last `/` and some non-dot character precedes it inside the
final path component. -/
def splitextExt (s : String) : String :=
  let cs := s.data
  let sepIdx : Int := match rfindChar cs '/' with
    | some i => (i : Int)
    | none => -1
  match rfindChar cs '.' with
  | none => ""
  | some di =>
    if sepIdx < (di : Int) ∧
        ((List.range di).any fun j => sepIdx < (j : Int) ∧ cs.getD j '.' ≠ '.') then
      String.mk (cs.drop di)
    else ""

/-- ASCII lower-casing of one character, as Python `str.lower` acts on the
ASCII file names involved here. -/
def pyLowerChar (c : Char) : Char :=
  if 'A' ≤ c ∧ c ≤ 'Z' then Char.ofNat (c.toNat + 32) else c

/-- Python `str.lower()`. -/
def pyToLower (s : String) : String := String.mk (s.data.map pyLowerChar)

/-- Python `str.endswith(suffix)`. -/
def pyEndsWith (s suffix : String) : Bool :=
  decide (suffix.data = s.data.drop (s.data.length - suffix.data.length))

/-- Python `str.startswith(prefix0)`. -/
def pyStartsWith (s pre : String) : Bool :=
  decide (s.data.take pre.data.length = pre.data)

/-- Python `str.replace(old, new)` for one-character `old` and `new` (the
only shape the embedded code uses): replace every occurrence. -/
def pyReplaceChar (s : String) (old new : Char) : String :=
  String.mk (s.data.map fun c => if c = old then new else c)

/-- CPython `posixpath.join` for two components: the second replaces the first
when absolute, otherwise they are glued with `/` unless the first is empty or
already ends in `/`. -/
def posixJoin (a b : String) : String :=
  if pyStartsWith b "/" then b
  else if a = "" ∨ pyEndsWith a "/" = true then a ++ b
  else a ++ "/" ++ b

/-- Python `x or ""` for an optional string (`None` and `""` are falsy). -/
def pyOrEmpty : Option String → String
  | none => ""
  | some s => s

/-- The default allowed extensions of `validate_media_extension`
(security.py lines 119-123). -/
def allowedMediaExtensions : List String :=
  [".png", ".jpg", ".jpeg", ".gif", ".bmp", ".webp",
   ".mp4", ".mov", ".avi", ".mkv", ".webm", ".flv"]

/-- `validate_media_extension` (security.py lines 108-126): case-insensitive
suffix test against the allowed extension set. -/
def validateMediaExtension (filename : String) : Bool :=
  allowedMediaExtensions.any fun ext => pyEndsWith (pyToLower filename) ext

/-- The video-extension tuple used by scanner.py (lines 170, 178) and
preload.py (line 42). -/
def videoExtensions : List String :=
  [".mp4", ".mov", ".avi", ".mkv", ".webm", ".flv"]

/-- `path.lower().endswith(('.mp4', '.mov', '.avi', '.mkv', '.webm', '.flv'))`. -/
def isVideoFile (path : String) : Bool :=
  videoExtensions.any fun ext => pyEndsWith (pyToLower path) ext

/-! ## SimpleCache (utils/cache.py) -/

/-- The state of a `SimpleCache` (cache.py lines 18-78): a dict from keys to
`(value, timestamp)` pairs plus the configured TTL.  Python's dict is modelled
as a partial map. -/
structure SimpleCache (α : Type) where
  data : String → Option (α × ℚ)
  ttl : ℚ

/-- `SimpleCache.get` (cache.py lines 43-66) at time `now`: a present entry is
returned while `now - timestamp < ttl`; an expired entry is deleted and the
call reports a miss. -/
def SimpleCache.get {α : Type} (c : SimpleCache α) (key : String) (now : ℚ) :
    Option α × SimpleCache α :=
  match c.data key with
  | some (v, timestamp) =>
    if now - timestamp < c.ttl then (some v, c)
    else (none, { c with data := fun k => if k = key then none else c.data k })
  | none => (none, c)

/-- `SimpleCache.set` (cache.py lines 68-78) at time `now`: stores
`(value, now)` under `key`. -/
def SimpleCache.set {α : Type} (c : SimpleCache α) (key : String) (v : α)
    (now : ℚ) : SimpleCache α :=
  { c with data := fun k => if k = key then some (v, now) else c.data k }

/-- `cache_key_for_directory` (cache.py lines 244-254); `hashlib.md5` is an
external library call, passed in as `md5hex`. -/
def cacheKeyForDirectory (md5hex : String → String) (directory : String) :
    String :=
  "dir:" ++ md5hex directory

/-! ## Thumbnail filename derivation (three call sites)

Each of the three components derives the on-disk thumbnail name with its own
copy of the code; each is transcribed separately from its own site.
`hashlib.md5(...).hexdigest()` is an external library call and is passed in as
`md5hex`, the same function at every site. -/

/-- Thumbnail path as computed by `ensure_thumbnail_exists`
(thumbnails.py lines 138-150): replace `\` then `/` by `_`, collapse names
longer than 200 characters to `md5hex` of the sanitized name plus its
`splitext` extension, append `.png`, and join onto the thumbnail directory. -/
def thumbPathEnsure (md5hex : String → String) (thumbnailDir filename : String) :
    String :=
  let safeFilename := pyReplaceChar (pyReplaceChar filename '\\' '_') '/' '_'
  let safeFilename :=
    if safeFilename.length > 200 then
      md5hex safeFilename ++ splitextExt safeFilename
    else safeFilename
  posixJoin thumbnailDir (safeFilename ++ ".png")

/-- Thumbnail path as computed by the preload orchestrator
(preload.py lines 62-70). -/
def thumbPathPreload (md5hex : String → String) (thumbnailDir videoPath : String) :
    String :=
  let safeFilename := pyReplaceChar (pyReplaceChar videoPath '\\' '_') '/' '_'
  let safeFilename :=
    if safeFilename.length > 200 then
      md5hex safeFilename ++ splitextExt safeFilename
    else safeFilename
  posixJoin thumbnailDir (safeFilename ++ ".png")

/-- Thumbnail path as computed by the `serve_thumbnail` request handler
(routes/media.py lines 48-56). -/
def thumbPathServe (md5hex : String → String) (thumbnailDir filename : String) :
    String :=
  let safeFilename := pyReplaceChar (pyReplaceChar filename '\\' '_') '/' '_'
  let safeFilename :=
    if safeFilename.length > 200 then
      md5hex safeFilename ++ splitextExt safeFilename
    else safeFilename
  posixJoin thumbnailDir (safeFilename ++ ".png")

/-! ## Filesystem model -/

/-- The filesystem as seen by the embedded code: the entries `os.walk` yields
for a directory (as `(root, file)` pairs, in yielded order, or an exception),
plus per-path existence, readability and size, and the dimension probe
`get_media_dimensions`. -/
structure FS where
  walk : String → Except PyError (List (String × String))
  pathExists : String → Bool
  readable : String → Bool
  size : String → Nat
  dims : String → Nat × Nat

/-- `os.remove p`: the path stops existing and its size reads as 0. -/
def FS.removeFile (fs : FS) (p : String) : FS :=
  { fs with
    pathExists := fun q => if q = p then false else fs.pathExists q,
    size := fun q => if q = p then 0 else fs.size q }

/-- A completed write of `n` bytes at path `p`. -/
def FS.writeFile (fs : FS) (p : String) (n : Nat) : FS :=
  { fs with
    pathExists := fun q => if q = p then true else fs.pathExists q,
    size := fun q => if q = p then n else fs.size q }

/-- `os.path.relpath full start` for the call sites of scanner.py, where
`full` is always `start` itself or a path below it. -/
def relPath (full start : String) : String :=
  if full = start then "."
  else if pyStartsWith full (start ++ "/") then
    full.drop (start.length + 1)
  else full

/-! ## DirectoryIndex: scan_directory (media/scanner.py) -/

/-- One record built by `scan_directory` (scanner.py lines 159-184).  In
Python it is a dict whose keys, in insertion order, are listed by
`mediaInfoKeys`. -/
structure MediaInfo where
  path : String
  width : Nat
  height : Nat
  thumbnail : String
  deriving DecidableEq, Repr

/-- Key insertion order of the media-info dict (scanner.py lines 159-182):
`path` first, then `width` and `height` (both branches assign them), then
`thumbnail`.  Iterating the dict — as tuple unpacking does — yields exactly
these keys. -/
def mediaInfoKeys : List String := ["path", "width", "height", "thumbnail"]

/-- The record `scan_directory` builds for one accepted walk entry
(scanner.py lines 156-184). -/
def buildMediaInfo (fs : FS) (directory root file : String)
    (includeDimensions : Bool) : MediaInfo :=
  let fullPath := posixJoin root file
  let rel := relPath fullPath directory
  let wh :=
    if includeDimensions then fs.dims fullPath
    else if isVideoFile file then (1920, 1080) else (1600, 1200)
  let thumbnail :=
    if isVideoFile file then "/thumbnail/" ++ rel else "/media/" ++ rel
  ⟨rel, wh.1, wh.2, thumbnail⟩

/-- The per-file loop body of `scan_directory` (scanner.py lines 132-193):
skip on bad extension, count-and-skip missing or unreadable files, otherwise
append the built record. -/
def scanStep (fs : FS) (directory : String) (includeDimensions : Bool)
    (acc : List MediaInfo) (entry : String × String) : List MediaInfo :=
  let (root, file) := entry
  if validateMediaExtension file = false then acc
  else
    let fullPath := posixJoin root file
    if fs.pathExists fullPath = false then acc
    else if fs.readable fullPath = false then acc
    else acc ++ [buildMediaInfo fs directory root file includeDimensions]

/-- The cache key `scan_directory` computes — identically at its lookup
(scanner.py lines 117-118) and its store (lines 208-209): the directory key
plus a suffix separating the with/without-dimensions result sets. -/
def scanCacheKey (md5hex : String → String) (directory : String)
    (includeDimensions : Bool) : String :=
  cacheKeyForDirectory md5hex directory ++
    (if includeDimensions then "_with_dims" else "_no_dims")

/-- `scan_directory` (scanner.py lines 95-213): optional cache lookup, the
walk (whose root-level failure propagates), and the final
`if use_cache and media:` store.  Returns the scan outcome and the directory
cache after the call. -/
def scanDirectory (md5hex : String → String) (fs : FS)
    (cache : SimpleCache (List MediaInfo)) (now : ℚ) (directory : String)
    (useCache includeDimensions : Bool) :
    Except PyError (List MediaInfo) × SimpleCache (List MediaInfo) :=
  let cacheKey := scanCacheKey md5hex directory includeDimensions
  let lookup : Option (List MediaInfo) × SimpleCache (List MediaInfo) :=
    if useCache then cache.get cacheKey now else (none, cache)
  match lookup with
  | (some cachedResult, c1) => (.ok cachedResult, c1)
  | (none, c1) =>
    match fs.walk directory with
    | .error e => (.error e, c1)
    | .ok entries =>
      let media := entries.foldl (scanStep fs directory includeDimensions) []
      if useCache = true ∧ media ≠ [] then
        (.ok media, c1.set cacheKey media now)
      else (.ok media, c1)

/-! ## ThumbnailWorker (workers/thumbnail_worker.py) -/

/-- One job tuple `(video_path, thumbnail_path, callback)`; the callback is
kept symbolically. -/
structure WorkerJob where
  videoPath : String
  thumbnailPath : String
  callback : Option String
  deriving DecidableEq, Repr

/-- The shared state of a `ThumbnailWorker` (thumbnail_worker.py lines
33-52): worker count, bounded queue (`none` entries are the poison pills
`stop` injects), running flag, and the stats dict. -/
structure ThumbnailWorkerState where
  numThreads : Nat
  maxQueueSize : Nat
  jobQueue : List (Option WorkerJob)
  running : Bool
  jobsCompleted : Nat
  jobsFailed : Nat
  jobsPending : Nat
  deriving DecidableEq, Repr

/-- `ThumbnailWorker.add_job` (thumbnail_worker.py lines 170-195): refuse
when not running; `Queue.put(..., block=False)` raises `Full` — caught,
returning `False` — when a positive `maxsize` is reached; otherwise the job
is appended and `jobs_pending` is recomputed from the live queue size. -/
def addJob (s : ThumbnailWorkerState) (videoPath thumbnailPath : String)
    (callback : Option String) : Bool × ThumbnailWorkerState :=
  if s.running = false then (false, s)
  else if 0 < s.maxQueueSize ∧ s.maxQueueSize ≤ s.jobQueue.length then
    (false, s)
  else
    let q := s.jobQueue ++ [some ⟨videoPath, thumbnailPath, callback⟩]
    (true, { s with jobQueue := q, jobsPending := q.length })

/-- The parameter names of `add_job` after `self` (thumbnail_worker.py line
170): a keyword argument must name one of these. -/
def addJobParamNames : List String := ["video_path", "thumbnail_path", "callback"]

/-- A call `worker.add_job(videoPath, thumbnailPath, kwName=kwValue)`: Python
binds the two positional arguments, then binds the keyword; a keyword that is
not a remaining parameter name raises `TypeError` before the body runs. -/
def addJobKwCall (s : ThumbnailWorkerState) (videoPath thumbnailPath : String)
    (kwName : String) (kwValue : ℚ) :
    Except PyError (Bool × ThumbnailWorkerState) :=
  let _ := kwValue
  if kwName = "callback" then .ok (addJob s videoPath thumbnailPath none)
  else .error .typeError

/-- What `Queue.join()` waits on: the number of unfinished tasks at the call,
and the (chronological) times at which subsequent `task_done` calls arrive. -/
structure JoinModel where
  unfinished : Nat
  doneTimes : List ℚ
  deriving DecidableEq, Repr

/-- `Queue.join()`: returns immediately when nothing is unfinished, otherwise
at the time the last outstanding task is marked done; `none` when that never
happens (the caller blocks forever). -/
def queueJoinReturnTime (q : JoinModel) : Option ℚ :=
  if q.unfinished = 0 then some 0
  else q.doneTimes.get? (q.unfinished - 1)

/-- `ThumbnailWorker.wait_completion` (thumbnail_worker.py lines 197-213):
accepts a `timeout` argument but its body only calls `self.job_queue.join()`
and returns `True`.  Result: the returned flag and the time the call
unblocks. -/
def waitCompletion (timeout : Option ℚ) (q : JoinModel) : Bool × Option ℚ :=
  let _ := timeout
  (true, queueJoinReturnTime q)

/-! ## PreloadOrchestrator: preload_worker (workers/preload.py) -/

/-- Tuple unpacking `a, b = d` over a Python dict `d`: iterating a dict
yields its keys, and unpacking requires exactly two of them — otherwise
`ValueError`. -/
def unpackPairOfKeys (keys : List String) : Except PyError (String × String) :=
  match keys with
  | [a, b] => .ok (a, b)
  | _ => .error .valueError

/-- The comprehension
`[(path, thumb) for path, thumb in media_files if path.lower().endswith(...)]`
(preload.py lines 40-43).  Each element of `media_files` is a media-info dict
with the four keys `mediaInfoKeys`, so the unpacking raises on the first
element. -/
def videoFilesComprehension (mediaFiles : List MediaInfo) :
    Except PyError (List (String × String)) :=
  match mediaFiles with
  | [] => .ok []
  | _ :: rest => do
    let (path, thumb) ← unpackPairOfKeys mediaInfoKeys
    let tail ← videoFilesComprehension rest
    if isVideoFile path then pure ((path, thumb) :: tail) else pure tail

/-- The per-video body of the preparation loop (preload.py lines 58-83):
derive the full source path and the thumbnail path, skip when a non-empty
thumbnail already exists or the source is missing, otherwise keep the triple
`(full_video_path, thumbnail_path, video_path)`. -/
def preloadPrepareStep (md5hex : String → String) (fs : FS)
    (mediaRoot thumbnailDir : String)
    (acc : List (String × String × String)) (videoPath : String) :
    List (String × String × String) :=
  let fullVideoPath := posixJoin mediaRoot videoPath
  let thumbnailPath := thumbPathPreload md5hex thumbnailDir videoPath
  if fs.pathExists thumbnailPath = true ∧ 0 < fs.size thumbnailPath then acc
  else if fs.pathExists fullVideoPath = false then acc
  else acc ++ [(fullVideoPath, thumbnailPath, videoPath)]

/-- The batch loop (preload.py lines 87-109): queue each job of a batch via
`worker.add_job(full_video_path, thumbnail_path, timeout=10.0)` — a call
whose `timeout` keyword `add_job` does not accept — then wait for the batch
(between batches; `wait_completion` does not change the queue state observed
here).  Returns the total queued count and the worker state, or the first
exception. -/
def preloadProcessBatches (worker : ThumbnailWorkerState)
    (batches : List (List (String × String × String))) :
    Except PyError (Nat × ThumbnailWorkerState) :=
  match batches with
  | [] => .ok (0, worker)
  | batch :: rest => do
    let (n, w) ← batch.foldlM
      (fun (acc : Nat × ThumbnailWorkerState) item => do
        let (ok, w2) ← addJobKwCall acc.2 item.1 item.2.1 "timeout" 10
        pure (if ok then acc.1 + 1 else acc.1, w2))
      (0, worker)
    let (m, w3) ← preloadProcessBatches w rest
    pure (n + m, w3)

/-- The observable outcome of one `preload_worker` run. -/
structure PreloadResult where
  totalQueued : Nat
  errorLogged : Bool
  worker : ThumbnailWorkerState

/-- `preload_worker` (preload.py lines 30-117): uncached scan, the video
comprehension, the preparation loop, then batches of 500; the whole body is
wrapped in `try/except Exception`, which logs and returns.  An exception
escapes before any job has been queued (the comprehension raises
`ValueError` on the first record, and the first `add_job` call would raise
`TypeError` at keyword binding), so the worker state is returned as it was
at the failure point. -/
def preloadWorkerRun (md5hex : String → String) (fs : FS)
    (cache : SimpleCache (List MediaInfo)) (now : ℚ)
    (mediaRoot thumbnailDir : String) (worker : ThumbnailWorkerState) :
    PreloadResult :=
  match (scanDirectory md5hex fs cache now mediaRoot false true).1 with
  | .error _ => ⟨0, true, worker⟩
  | .ok mediaFiles =>
    match videoFilesComprehension mediaFiles with
    | .error _ => ⟨0, true, worker⟩
    | .ok videoFiles =>
      if videoFiles = [] then ⟨0, false, worker⟩
      else
        let videosToProcess := videoFiles.foldl
          (fun acc pt => preloadPrepareStep md5hex fs mediaRoot thumbnailDir acc pt.1) []
        match preloadProcessBatches worker (videosToProcess.toChunks 500) with
        | .error _ => ⟨0, true, worker⟩
        | .ok (totalQueued, w) => ⟨totalQueued, false, w⟩

/-! ## Rendering primitive: generate_video_thumbnail (media/thumbnails.py) -/

/-- Outcome oracles for one `generate_video_thumbnail` run: whether the
source exists, whether each external step (decoder open, frame grab, PIL
conversion and resize, `makedirs`, `image.save`, `clip.close`) succeeds, the
decoder-reported duration, the byte size of the encoded PNG, and the byte
count a *failed* `image.save` leaves behind at the destination it opened
(`partialSize`; possibly 0 — the Pillow versions the repository permits,
`Pillow >= 7.0.0`, do not remove a file they created on a save error). -/
structure GenOracle where
  videoExists : Bool
  openOk : Bool
  duration : ℚ
  getFrameOk : Bool
  fromarrayOk : Bool
  resizeOk : Bool
  makedirsOk : Bool
  saveOk : Bool
  closeRaises : Bool
  pngSize : Nat
  partialSize : Nat
  deriving DecidableEq, Repr

/-- Observable facts about one `generate_video_thumbnail` run: the returned
flag, whether `VideoFileClip` was successfully opened, whether
`clip.close()` was invoked, and whether control reached `image.save` — the
step that opens (creates or truncates) the destination file, so that a
failing save still leaves a file there. -/
structure GenRun where
  success : Bool
  opened : Bool
  closeCalled : Bool
  saveAttempted : Bool
  deriving DecidableEq, Repr

/-- `generate_video_thumbnail` control flow (thumbnails.py lines 30-107).
Every exception lands in a handler returning `False`; the `finally` block
closes the clip when the variable still refers to it.  The early
`clip.close()` calls (invalid duration, line 63; after the frame grab, line
71) mark the clip closed even when `close` itself raises, and the `finally`
re-close is then attempted as well.  `image.save` (line 84) is reached —
and the destination file opened — only after every earlier step
succeeded. -/
def generateVideoThumbnail (o : GenOracle) : GenRun :=
  if o.videoExists = false then ⟨false, false, false, false⟩
  else if o.openOk = false then ⟨false, false, false, false⟩
  else if o.duration ≤ 0 then ⟨false, true, true, false⟩
  else if o.getFrameOk = false then ⟨false, true, true, false⟩
  else if o.closeRaises = true then ⟨false, true, true, false⟩
  else if o.fromarrayOk = false then ⟨false, true, true, false⟩
  else if o.resizeOk = false then ⟨false, true, true, false⟩
  else if o.makedirsOk = false then ⟨false, true, true, false⟩
  else if o.saveOk = false then ⟨false, true, true, true⟩
  else ⟨true, true, true, true⟩

/-! ### File events of the successful render -/

/-- Primitive filesystem operations a render can perform on its way to
publishing the thumbnail. -/
inductive FileEvent
  | mkdirs (dir : String)
  | openTrunc (path : String)
  | writeChunk (path : String) (bytes : Nat)
  | closeFile (path : String)
  | rename (src dst : String)
  deriving DecidableEq, Repr

/-- `PIL.Image.save(path)` semantics: open (create/truncate) the destination
itself, stream the encoded bytes to it in one or more write calls, close. -/
def pilSaveEvents (path : String) (chunks : List Nat) : List FileEvent :=
  FileEvent.openTrunc path :: chunks.map (FileEvent.writeChunk path) ++
    [FileEvent.closeFile path]

/-- The file events of `generate_video_thumbnail`'s successful path
(thumbnails.py lines 78-87): `os.makedirs` on the thumbnail directory, then
`image.save(thumbnail_path, 'PNG', ...)` writing directly to the destination
path.  `chunks` are the sizes of the encoder's write calls. -/
def generateWriteTrace (thumbnailDir thumbnailPath : String)
    (chunks : List Nat) : List FileEvent :=
  FileEvent.mkdirs thumbnailDir :: pilSaveEvents thumbnailPath chunks

/-- What a concurrent reader sees of the file at `dest` at one instant:
presence and current byte size. -/
structure ObsFile where
  present : Bool
  size : Nat
  deriving DecidableEq, Repr

/-- Replay a trace prefix and report the state of `dest`: `openTrunc`
creates it empty, `writeChunk` appends, `rename` onto it installs the
complete content of size `total`. -/
def observeDest (dest : String) (total : Nat) (tr : List FileEvent) : ObsFile :=
  tr.foldl
    (fun st e =>
      match e with
      | .openTrunc p => if p = dest then ⟨true, 0⟩ else st
      | .writeChunk p n => if p = dest then ⟨st.present, st.size + n⟩ else st
      | .rename _ d => if d = dest then ⟨true, total⟩ else st
      | _ => st)
    ⟨false, 0⟩

/-- The claimed publication discipline: the destination is never opened or
written directly; its content only ever appears via a rename. -/
def usesTempThenRename (dest : String) (tr : List FileEvent) : Bool :=
  (tr.all fun e =>
    match e with
    | .openTrunc p => p ≠ dest
    | .writeChunk p _ => p ≠ dest
    | _ => true) &&
  (tr.any fun e =>
    match e with
    | .rename _ d => d = dest
    | _ => false)

/-- The claimed observation guarantee: at no prefix of the trace does the
destination exist with `0 < size < total` (a non-empty but incomplete
file). -/
def atomicPublish (dest : String) (total : Nat) (tr : List FileEvent) : Bool :=
  (List.range (tr.length + 1)).all fun i =>
    let st := observeDest dest total (tr.take i)
    !(st.present && 0 < st.size && st.size < total)

/-! ## ThumbnailStore: ensure_thumbnail_exists (media/thumbnails.py) -/

/-- The generation tail of `ensure_thumbnail_exists` (thumbnails.py lines
166-173), factored out so that "the corrupt file is deleted before
regeneration is attempted" is statable: call the rendering primitive on the
filesystem `fs1` it is given and return the fresh path on success or the
placeholder on failure.  The filesystem effect of the render: a successful
run leaves the complete `pngSize`-byte PNG at the destination; a run whose
`image.save` failed leaves the `partialSize`-byte file the save opened
(Pillow `>= 7.0.0`, the repository's requirement, does not remove it); a run
failing before `image.save` touches nothing. -/
def ensureGenerateStep (md5hex : String → String) (o : GenOracle) (fs1 : FS)
    (thumbnailDir filename videoPath : String) (placeholder : String) :
    String × FS :=
  let thumbnailPath := thumbPathEnsure md5hex thumbnailDir filename
  let r := generateVideoThumbnail
    { o with videoExists := fs1.pathExists videoPath }
  if r.success then
    (thumbnailPath, fs1.writeFile thumbnailPath o.pngSize)
  else if r.saveAttempted then
    (placeholder, fs1.writeFile thumbnailPath o.partialSize)
  else (placeholder, fs1)

/-- `ensure_thumbnail_exists` (thumbnails.py lines 110-177).  `get_safe_path`
is the external SafePathResolver collaborator, passed in as a function.
`os.remove` of the existing zero-size file succeeds on the modelled
filesystem (the handler at lines 161-164 only logs and continues).  Returns
the result string and the filesystem after the call. -/
def ensureThumbnailExists (md5hex : String → String)
    (getSafePath : String → String → Option String)
    (o : GenOracle) (fs : FS)
    (mediaRoot thumbnailDir filename : String)
    (placeholderUrl : Option String) : String × FS :=
  let placeholder := pyOrEmpty placeholderUrl
  match getSafePath mediaRoot filename with
  | none => (placeholder, fs)
  | some videoPath =>
    if videoPath = "" then (placeholder, fs)
    else if fs.pathExists videoPath = false then (placeholder, fs)
    else
      let thumbnailPath := thumbPathEnsure md5hex thumbnailDir filename
      if fs.pathExists thumbnailPath = true ∧ 0 < fs.size thumbnailPath then
        (thumbnailPath, fs)
      else
        let fs1 :=
          if fs.pathExists thumbnailPath = true then
            fs.removeFile thumbnailPath
          else fs
        ensureGenerateStep md5hex o fs1 thumbnailDir filename videoPath
          placeholder

/-! ## SyncFallbackResolver: serve_thumbnail (routes/media.py) -/

/-- A response as the client sees it: a served file, a plain string body (a
Flask handler returning a string), or an HTTP error status. -/
inductive HttpResponse
  | file (path : String)
  | body (s : String)
  | httpError (code : Nat)
  deriving DecidableEq, Repr

/-- `serve_thumbnail` (routes/media.py lines 24-91).  Every `abort(...)`
inside the `try` raises an `HTTPException`, which the final
`except Exception` catches; that handler returns `placeholder_url` when it
is non-empty and otherwise lets a 500 propagate.  Returns the response and
the filesystem after the call. -/
def serveThumbnail (md5hex : String → String)
    (getSafePath : String → String → Option String)
    (o : GenOracle) (fs : FS)
    (mediaRoot thumbnailDir placeholderUrl filename : String) :
    HttpResponse × FS :=
  let caught : FS → HttpResponse × FS := fun f =>
    (if placeholderUrl ≠ "" then .body placeholderUrl else .httpError 500, f)
  if validateMediaExtension filename = false then caught fs
  else
    match getSafePath mediaRoot filename with
    | none => caught fs
    | some mediaFilePath =>
      if mediaFilePath = "" then caught fs
      else
        let thumbnailPath := thumbPathServe md5hex thumbnailDir filename
        if fs.pathExists thumbnailPath = true ∧ 0 < fs.size thumbnailPath then
          (.file thumbnailPath, fs)
        else if fs.pathExists mediaFilePath = false then caught fs
        else
          let er := ensureThumbnailExists md5hex getSafePath o fs
            mediaRoot thumbnailDir filename (some placeholderUrl)
          let thumbnailResult := er.1
          let fs2 := er.2
          if thumbnailResult ≠ "" ∧ thumbnailResult ≠ placeholderUrl ∧
              fs2.pathExists thumbnailResult = true ∧
              0 < fs2.size thumbnailResult then
            (.file thumbnailResult, fs2)
          else caught fs2

/-! ## Concrete fixtures used by witnesses and counterexamples -/

/-- A stand-in for `hashlib.md5(...).hexdigest()` on concrete inputs; the
claims proved here hold for every hash function, so the identity suffices. -/
def md5Fix : String → String := fun s => s

/-- A safe-path resolver instance that accepts a plain relative name, as the
real resolver does (security.py lines 51-79). -/
def safeJoinFix : String → String → Option String :=
  fun root rel => some (posixJoin root rel)

/-- An empty directory cache with a 300 s TTL. -/
def emptyMediaCache : SimpleCache (List MediaInfo) := ⟨fun _ => none, 300⟩

/-- A filesystem with one video file `root/a.mp4` and no thumbnails. -/
def fsOneVideo : FS where
  walk := fun _ => .ok [("root", "a.mp4")]
  pathExists := fun _ => true
  readable := fun _ => true
  size := fun _ => 0
  dims := fun _ => (10, 10)

/-- Oracles for a fully successful render producing a 10-byte PNG. -/
def genOracleOk : GenOracle :=
  { videoExists := true, openOk := true, duration := 5, getFrameOk := true,
    fromarrayOk := true, resizeOk := true, makedirsOk := true, saveOk := true,
    closeRaises := false, pngSize := 10, partialSize := 0 }

/-- A filesystem holding only a zero-byte file at `thumbs/v.mp4.png`; the
source video `root/v.mp4` is absent. -/
def fsZeroThumbNoVideo : FS where
  walk := fun _ => .ok []
  pathExists := fun p => p == "thumbs/v.mp4.png"
  readable := fun _ => true
  size := fun _ => 0
  dims := fun _ => (0, 0)

/-- A filesystem holding the source video `root/v.mp4` and a zero-byte file
at `thumbs/v.mp4.png`. -/
def fsZeroThumbWithVideo : FS where
  walk := fun _ => .ok []
  pathExists := fun p => p == "thumbs/v.mp4.png" || p == "root/v.mp4"
  readable := fun _ => true
  size := fun _ => 0
  dims := fun _ => (0, 0)

/-- An idle running worker with queue capacity 100. -/
def workerIdle : ThumbnailWorkerState := ⟨2, 100, [], true, 0, 0, 0⟩

/-! ## Theorems -/

/-- C5: for every relative media path, the store (`ensure_thumbnail_exists`),
the preload orchestrator (`preload_worker`) and the request fallback
(`serve_thumbnail`) derive the identical thumbnail path: separators `\` and
`/` replaced with `_`, names over 200 characters collapsed to the md5 hex of
the sanitized name plus the original extension, `.png` appended. -/
theorem claim_C5_naming_identical (md5hex : String → String)
    (thumbnailDir rel : String) :
    thumbPathEnsure md5hex thumbnailDir rel =
      thumbPathPreload md5hex thumbnailDir rel ∧
    thumbPathPreload md5hex thumbnailDir rel =
      thumbPathServe md5hex thumbnailDir rel :=
  ⟨rfl, rfl⟩

/-- C4: a value stored at `storedAt` is returned by a `get` at `now` exactly
when `now - storedAt < ttl`, and a `get` finding the entry expired evicts
it. -/
theorem claim_C4_cache_ttl {α : Type} (c : SimpleCache α) (key : String)
    (v : α) (storedAt now : ℚ) :
    (((c.set key v storedAt).get key now).1 = some v ↔
      now - storedAt < c.ttl) ∧
    (c.ttl ≤ now - storedAt →
      ((c.set key v storedAt).get key now).2.data key = none) := by
  by_cases h : now - storedAt < c.ttl
  · refine ⟨?_, fun hexp => absurd h (by linarith)⟩
    simp [SimpleCache.get, SimpleCache.set, h]
  · refine ⟨?_, fun _ => ?_⟩
    · simp [SimpleCache.get, SimpleCache.set, h]
    · simp [SimpleCache.get, SimpleCache.set, h]

/-- C4 witness: a 42 stored at time 0 in a TTL-5 cache is already expired at
time 5 (age = ttl) and that `get` evicts it. -/
theorem claim_C4_cache_ttl_witness :
    ((5 : ℚ) ≤ (5 : ℚ) - (0 : ℚ)) ∧
    (((⟨fun _ => none, 5⟩ : SimpleCache Nat).set "k" 42 0).get "k" 5).2.data
      "k" = none :=
  ⟨by simp,
    (claim_C4_cache_ttl (⟨fun _ => none, 5⟩ : SimpleCache Nat) "k" 42 0 5).2
      (by simp)⟩

/-- C6: `add_job` returns `False` with the queue unchanged when the pool is
not running or a positive capacity is reached, and otherwise appends the job
and returns `True`; it never blocks (the embedding is a total function). -/
theorem claim_C6_add_job (s : ThumbnailWorkerState) (v t : String)
    (cb : Option String) :
    (s.running = false → addJob s v t cb = (false, s)) ∧
    (s.running = true → 0 < s.maxQueueSize →
      s.maxQueueSize ≤ s.jobQueue.length → addJob s v t cb = (false, s)) ∧
    (s.running = true →
      (s.jobQueue.length < s.maxQueueSize ∨ s.maxQueueSize = 0) →
      (addJob s v t cb).1 = true ∧
      (addJob s v t cb).2.jobQueue = s.jobQueue ++ [some ⟨v, t, cb⟩]) := by
  refine ⟨fun h => ?_, fun h hpos hfull => ?_, fun h hroom => ?_⟩
  · simp [addJob, h]
  · simp [addJob, h, hpos, hfull]
  · have hnotfull : ¬(0 < s.maxQueueSize ∧ s.maxQueueSize ≤ s.jobQueue.length) := by
      rcases hroom with h1 | h1 <;> omega
    simp [addJob, h, hnotfull]

/-- C6 witness: a stopped pool refuses, a full capacity-1 queue refuses, an
idle running pool accepts. -/
theorem claim_C6_add_job_witness :
    addJob ⟨2, 100, [], false, 0, 0, 0⟩ "v" "t" none =
      (false, ⟨2, 100, [], false, 0, 0, 0⟩) ∧
    addJob ⟨2, 1, [some ⟨"a", "b", none⟩], true, 0, 0, 0⟩ "v" "t" none =
      (false, ⟨2, 1, [some ⟨"a", "b", none⟩], true, 0, 0, 0⟩) ∧
    (addJob workerIdle "v" "t" none).1 = true :=
  ⟨(claim_C6_add_job _ "v" "t" none).1 rfl,
   (claim_C6_add_job _ "v" "t" none).2.1 rfl (by decide) (by decide),
   ((claim_C6_add_job workerIdle "v" "t" none).2.2 rfl (by decide)).1⟩

/-- C10: `wait_completion` ignores its `timeout` argument entirely — every
call performs the bare `queue.join()`, returning only once all outstanding
tasks are marked done; in particular a call with a finite timeout of 1
second still blocks until the last task completes at time 100. -/
theorem claim_C10_wait_ignores_timeout :
    (∀ (t1 t2 : Option ℚ) (q : JoinModel),
      waitCompletion t1 q = waitCompletion t2 q) ∧
    (∀ (t : Option ℚ) (q : JoinModel),
      waitCompletion t q = (true, queueJoinReturnTime q)) ∧
    (waitCompletion (some 1) ⟨1, [100]⟩ = (true, some 100) ∧ (1 : ℚ) < 100) :=
  ⟨fun _ _ _ => rfl, fun _ _ => rfl, rfl, by simp⟩

/-- C8: whenever `generate_video_thumbnail` successfully opens the decoder,
`clip.close()` is invoked before the function returns, on every exit path. -/
theorem claim_C8_clip_closed (o : GenOracle)
    (h : (generateVideoThumbnail o).opened = true) :
    (generateVideoThumbnail o).closeCalled = true := by
  unfold generateVideoThumbnail at h ⊢
  split_ifs at h ⊢ <;> simp_all

/-- C8 witness: a fully successful run opens the decoder and closes it. -/
theorem claim_C8_clip_closed_witness :
    (generateVideoThumbnail genOracleOk).opened = true ∧
    (generateVideoThumbnail genOracleOk).closeCalled = true :=
  ⟨by decide, claim_C8_clip_closed genOracleOk (by decide)⟩

/-- C1: the preload run can never submit a job.  The comprehension
`for path, thumb in media_files` unpacks each scan record — a four-key dict —
into two variables and raises `ValueError` on the first record, and the
`add_job` call site passes the keyword `timeout`, which `add_job` does not
accept (`TypeError`); the outer handler swallows the exception.  So for every
filesystem the run queues zero jobs and leaves the worker untouched, and on a
root holding one video it ends with the error logged instead of submitting
the video in a batch. -/
theorem claim_C1_preload_queues_nothing :
    (∀ (md5hex : String → String) (fs : FS)
        (cache : SimpleCache (List MediaInfo)) (now : ℚ)
        (mediaRoot thumbnailDir : String) (worker : ThumbnailWorkerState),
      (preloadWorkerRun md5hex fs cache now mediaRoot thumbnailDir
          worker).totalQueued = 0 ∧
      (preloadWorkerRun md5hex fs cache now mediaRoot thumbnailDir
          worker).worker = worker) ∧
    (preloadWorkerRun md5Fix fsOneVideo emptyMediaCache 0 "root" "thumbs"
        workerIdle).errorLogged = true ∧
    addJobKwCall workerIdle "root/a.mp4" "thumbs/a.mp4.png" "timeout" 10 =
      .error .typeError := by
  refine ⟨?_, rfl, rfl⟩
  intro md5hex fs cache now mediaRoot thumbnailDir worker
  unfold preloadWorkerRun
  cases (scanDirectory md5hex fs cache now mediaRoot false true).1 with
  | error e => exact ⟨rfl, rfl⟩
  | ok mediaFiles =>
    cases mediaFiles with
    | nil => exact ⟨rfl, rfl⟩
    | cons m rest => exact ⟨rfl, rfl⟩

/-- No event in a render's write trace is a rename. -/
lemma writeTrace_no_rename (thumbnailDir dest target : String)
    (chunks : List Nat) :
    ((generateWriteTrace thumbnailDir dest chunks).any fun e =>
      match e with
      | FileEvent.rename _ d => d = target
      | _ => false) = false := by
  have hmap : ∀ l : List Nat,
      ((l.map (FileEvent.writeChunk dest)).any fun e =>
        match e with
        | FileEvent.rename _ d => d = target
        | _ => false) = false := by
    intro l
    induction l with
    | nil => rfl
    | cons a l ih => simp [ih]
  simp [generateWriteTrace, pilSaveEvents, List.any_append, hmap]

/-- C2 counterexample: for a concrete render whose encoder writes the 16-byte
PNG in two 8-byte chunks, the destination is opened and written directly (no
temp-then-rename), and an intermediate step exposes the destination with size
8 — non-zero but not the complete PNG. -/
theorem claim_C2_counterexample :
    usesTempThenRename "thumbs/a.png"
      (generateWriteTrace "thumbs" "thumbs/a.png" [8, 8]) = false ∧
    atomicPublish "thumbs/a.png" 16
      (generateWriteTrace "thumbs" "thumbs/a.png" [8, 8]) = false := by
  decide

/-- C2 (amended): `generate_video_thumbnail` publishes nothing atomically —
it writes the PNG directly to the destination path via `image.save` with no
temp file and no rename, so whenever the encoder emits its bytes in at least
two write calls there is an intermediate step at which a concurrent reader
observes the destination with size > 0 but smaller than the complete PNG. -/
theorem claim_C2_amended (thumbnailDir dest : String) (c1 c2 : Nat)
    (cs : List Nat) (h1 : 0 < c1) (h2 : 0 < c2 + cs.sum) :
    usesTempThenRename dest
      (generateWriteTrace thumbnailDir dest (c1 :: c2 :: cs)) = false ∧
    ∃ i,
      (observeDest dest (c1 + (c2 + cs.sum))
        ((generateWriteTrace thumbnailDir dest (c1 :: c2 :: cs)).take
          i)).present = true ∧
      0 < (observeDest dest (c1 + (c2 + cs.sum))
        ((generateWriteTrace thumbnailDir dest (c1 :: c2 :: cs)).take
          i)).size ∧
      (observeDest dest (c1 + (c2 + cs.sum))
        ((generateWriteTrace thumbnailDir dest (c1 :: c2 :: cs)).take
          i)).size < c1 + (c2 + cs.sum) := by
  have htake : (generateWriteTrace thumbnailDir dest (c1 :: c2 :: cs)).take 3 =
      [FileEvent.mkdirs thumbnailDir, FileEvent.openTrunc dest,
        FileEvent.writeChunk dest c1] := rfl
  constructor
  · unfold usesTempThenRename
    rw [writeTrace_no_rename]
    exact Bool.and_false _
  · refine ⟨3, ?_, ?_, ?_⟩
    · rw [htake]; simp [observeDest]
    · rw [htake]; simp [observeDest]; omega
    · rw [htake]; simp [observeDest]; omega

/-- C2 amended-claim witness at the concrete two-chunk render. -/
theorem claim_C2_amended_witness :
    0 < 8 ∧ 0 < 8 + ([] : List Nat).sum ∧
    (usesTempThenRename "thumbs/a.png"
        (generateWriteTrace "thumbs" "thumbs/a.png" [8, 8]) = false ∧
      ∃ i,
        (observeDest "thumbs/a.png" (8 + (8 + ([] : List Nat).sum))
          ((generateWriteTrace "thumbs" "thumbs/a.png" [8, 8]).take
            i)).present = true ∧
        0 < (observeDest "thumbs/a.png" (8 + (8 + ([] : List Nat).sum))
          ((generateWriteTrace "thumbs" "thumbs/a.png" [8, 8]).take
            i)).size ∧
        (observeDest "thumbs/a.png" (8 + (8 + ([] : List Nat).sum))
          ((generateWriteTrace "thumbs" "thumbs/a.png" [8, 8]).take
            i)).size < 8 + (8 + ([] : List Nat).sum)) :=
  ⟨by decide, by decide,
    claim_C2_amended "thumbs" "thumbs/a.png" 8 8 [] (by decide) (by decide)⟩

/-- A cache `get` never adds an entry: a key absent before the call is
absent after it. -/
lemma cacheGet_preserves_none {α : Type} (c : SimpleCache α) (key : String)
    (now : ℚ) (k : String) (h : c.data k = none) :
    ((c.get key now).2).data k = none := by
  rcases hd : c.data key with _ | ⟨v, ts⟩
  · simp [SimpleCache.get, hd, h]
  · by_cases hlt : now - ts < c.ttl
    · simp [SimpleCache.get, hd, hlt, h]
    · simp [SimpleCache.get, hd, hlt, h]

/-- C9: any entry a `scan_directory` call adds to the directory cache is the
call's own result, stored only when caching was requested and the result is
non-empty — an empty scan result is never stored. -/
theorem claim_C9_empty_scan_not_cached (md5hex : String → String) (fs : FS)
    (cache : SimpleCache (List MediaInfo)) (now t : ℚ) (directory : String)
    (useCache includeDimensions : Bool) (k : String) (v : List MediaInfo)
    (h0 : cache.data k = none)
    (h1 : (scanDirectory md5hex fs cache now directory useCache
        includeDimensions).2.data k = some (v, t)) :
    useCache = true ∧
    (scanDirectory md5hex fs cache now directory useCache
        includeDimensions).1 = .ok v ∧
    v ≠ [] := by
  cases useCache with
  | false =>
    exfalso
    rcases hw : fs.walk directory with e | entries
    · simp [scanDirectory, hw, h0] at h1
    · simp [scanDirectory, hw, h0] at h1
  | true =>
    rcases hg : cache.get (scanCacheKey md5hex directory includeDimensions)
        now with ⟨r, c1⟩
    have hc1 : c1.data k = none := by
      have hp := cacheGet_preserves_none cache
        (scanCacheKey md5hex directory includeDimensions) now k h0
      rw [hg] at hp
      exact hp
    rcases r with _ | cached
    · rcases hw : fs.walk directory with e | entries
      · exfalso
        simp [scanDirectory, hg, hw, hc1] at h1
      · by_cases hm :
            (entries.foldl (scanStep fs directory includeDimensions) []) = []
        · exfalso
          simp [scanDirectory, hg, hw, hm, hc1] at h1
        · by_cases hk : k = scanCacheKey md5hex directory includeDimensions
          · subst hk
            simp [scanDirectory, hg, hw, hm, SimpleCache.set] at h1
            refine ⟨rfl, ?_, ?_⟩
            · simp [scanDirectory, hg, hw, hm, h1.1]
              split <;> rfl
            · rw [← h1.1]
              exact hm
          · exfalso
            simp [scanDirectory, hg, hw, hm, SimpleCache.set, hk, hc1] at h1
    · exfalso
      simp [scanDirectory, hg, hc1] at h1

/-- C9 witness: a cached scan of a one-video root stores its non-empty
result under the derived key. -/
theorem claim_C9_empty_scan_not_cached_witness :
    emptyMediaCache.data "dir:root_with_dims" = none ∧
    ((scanDirectory md5Fix fsOneVideo emptyMediaCache 0 "root" true true).1 =
        .ok [⟨"a.mp4", 10, 10, "/thumbnail/a.mp4"⟩] ∧
      ([⟨"a.mp4", 10, 10, "/thumbnail/a.mp4"⟩] : List MediaInfo) ≠ []) :=
  ⟨rfl,
    (claim_C9_empty_scan_not_cached md5Fix fsOneVideo emptyMediaCache 0 0
        "root" true true "dir:root_with_dims"
        [⟨"a.mp4", 10, 10, "/thumbnail/a.mp4"⟩] rfl (by decide)).2⟩

/-- C7 counterexample: with a zero-byte file at the derived thumbnail path
`thumbs/v.mp4.png` but the source video absent, `ensure_thumbnail_exists`
returns the placeholder without deleting the zero-size file — the zero-byte
file is still present after the call, so the claim's "deletes that file"
fails. -/
theorem claim_C7_counterexample :
    thumbPathEnsure md5Fix "thumbs" "v.mp4" = "thumbs/v.mp4.png" ∧
    fsZeroThumbNoVideo.pathExists "thumbs/v.mp4.png" = true ∧
    fsZeroThumbNoVideo.size "thumbs/v.mp4.png" = 0 ∧
    (ensureThumbnailExists md5Fix safeJoinFix genOracleOk
        fsZeroThumbNoVideo "root" "thumbs" "v.mp4" (some "PH")).1 = "PH" ∧
    (ensureThumbnailExists md5Fix safeJoinFix genOracleOk
        fsZeroThumbNoVideo "root" "thumbs" "v.mp4"
        (some "PH")).2.pathExists "thumbs/v.mp4.png" = true := by
  decide

/-- Case shape of the generation tail: it yields either the thumbnail path
paired with the freshly written complete PNG, or the placeholder. -/
lemma ensureGenerateStep_cases (md5hex : String → String) (o : GenOracle)
    (fs1 : FS) (thumbnailDir filename videoPath placeholder : String) :
    ensureGenerateStep md5hex o fs1 thumbnailDir filename videoPath
        placeholder =
      (thumbPathEnsure md5hex thumbnailDir filename,
        fs1.writeFile (thumbPathEnsure md5hex thumbnailDir filename)
          o.pngSize) ∨
    (ensureGenerateStep md5hex o fs1 thumbnailDir filename videoPath
        placeholder).1 = placeholder := by
  unfold ensureGenerateStep
  by_cases hs : (generateVideoThumbnail { o with videoExists :=
      (fs1.pathExists videoPath) }).success = true
  · left
    simp [hs]
  · right
    by_cases hsa : (generateVideoThumbnail { o with videoExists :=
        (fs1.pathExists videoPath) }).saveAttempted = true
    · simp [hs, hsa]
    · simp [hs, hsa]

/-- C7 (amended): when the safe-path resolution succeeds and the resolved
source file exists, an `ensure` call over a zero-size file at the derived
thumbnail path deletes that file before regeneration is attempted (the call
equals the generation tail run on the filesystem with the file removed), and
returns either the placeholder or the thumbnail path backed by a freshly
generated non-zero-size file — never the pre-existing zero-size file as
valid.  (A failed `image.save` may leave a new partial file at the
destination; the pre-existing zero-size file was nonetheless deleted first,
and in that case the placeholder is returned.) -/
theorem claim_C7_amended (md5hex : String → String)
    (getSafePath : String → String → Option String) (o : GenOracle)
    (fs : FS) (mediaRoot thumbnailDir filename : String)
    (placeholderUrl : Option String) (videoPath : String)
    (hsafe : getSafePath mediaRoot filename = some videoPath)
    (hvne : videoPath ≠ "")
    (hvid : fs.pathExists videoPath = true)
    (hthumb : fs.pathExists (thumbPathEnsure md5hex thumbnailDir filename) =
      true)
    (hzero : fs.size (thumbPathEnsure md5hex thumbnailDir filename) = 0)
    (hpng : 0 < o.pngSize)
    (hph : pyOrEmpty placeholderUrl ≠
      thumbPathEnsure md5hex thumbnailDir filename) :
    (ensureThumbnailExists md5hex getSafePath o fs mediaRoot thumbnailDir
        filename placeholderUrl =
      ensureGenerateStep md5hex o
        (fs.removeFile (thumbPathEnsure md5hex thumbnailDir filename))
        thumbnailDir filename videoPath (pyOrEmpty placeholderUrl)) ∧
    ((ensureThumbnailExists md5hex getSafePath o fs mediaRoot thumbnailDir
        filename placeholderUrl).1 = pyOrEmpty placeholderUrl ∨
      (ensureThumbnailExists md5hex getSafePath o fs mediaRoot thumbnailDir
        filename placeholderUrl).1 =
          thumbPathEnsure md5hex thumbnailDir filename) ∧
    ((ensureThumbnailExists md5hex getSafePath o fs mediaRoot thumbnailDir
        filename placeholderUrl).1 =
          thumbPathEnsure md5hex thumbnailDir filename →
      (ensureThumbnailExists md5hex getSafePath o fs mediaRoot thumbnailDir
        filename placeholderUrl).2.size
          (thumbPathEnsure md5hex thumbnailDir filename) = o.pngSize ∧
      0 < (ensureThumbnailExists md5hex getSafePath o fs mediaRoot
        thumbnailDir filename placeholderUrl).2.size
          (thumbPathEnsure md5hex thumbnailDir filename)) := by
  have hstep : ensureThumbnailExists md5hex getSafePath o fs mediaRoot
      thumbnailDir filename placeholderUrl =
      ensureGenerateStep md5hex o
        (fs.removeFile (thumbPathEnsure md5hex thumbnailDir filename))
        thumbnailDir filename videoPath (pyOrEmpty placeholderUrl) := by
    unfold ensureThumbnailExists
    rw [hsafe]
    simp [hvne, hvid, hthumb, hzero]
  refine ⟨hstep, ?_, ?_⟩
  · rw [hstep]
    rcases ensureGenerateStep_cases md5hex o
        (fs.removeFile (thumbPathEnsure md5hex thumbnailDir filename))
        thumbnailDir filename videoPath (pyOrEmpty placeholderUrl)
      with hcase | hcase
    · rw [hcase]
      exact Or.inr rfl
    · exact Or.inl hcase
  · rw [hstep]
    rcases ensureGenerateStep_cases md5hex o
        (fs.removeFile (thumbPathEnsure md5hex thumbnailDir filename))
        thumbnailDir filename videoPath (pyOrEmpty placeholderUrl)
      with hcase | hcase
    · rw [hcase]
      exact fun _ => ⟨by simp [FS.writeFile], by simp [FS.writeFile, hpng]⟩
    · exact fun hres => absurd (hcase.symm.trans hres) hph

/-- C7 amended-claim witness: source present, zero-byte thumbnail present,
generation succeeds. -/
theorem claim_C7_amended_witness :
    (ensureThumbnailExists md5Fix safeJoinFix genOracleOk
        fsZeroThumbWithVideo "root" "thumbs" "v.mp4" (some "PH") =
      ensureGenerateStep md5Fix genOracleOk
        (fsZeroThumbWithVideo.removeFile
          (thumbPathEnsure md5Fix "thumbs" "v.mp4"))
        "thumbs" "v.mp4" "root/v.mp4" (pyOrEmpty (some "PH"))) ∧
    ((ensureThumbnailExists md5Fix safeJoinFix genOracleOk
        fsZeroThumbWithVideo "root" "thumbs" "v.mp4"
        (some "PH")).1 = pyOrEmpty (some "PH") ∨
      (ensureThumbnailExists md5Fix safeJoinFix genOracleOk
        fsZeroThumbWithVideo "root" "thumbs" "v.mp4"
        (some "PH")).1 = thumbPathEnsure md5Fix "thumbs" "v.mp4") ∧
    ((ensureThumbnailExists md5Fix safeJoinFix genOracleOk
        fsZeroThumbWithVideo "root" "thumbs" "v.mp4"
        (some "PH")).1 = thumbPathEnsure md5Fix "thumbs" "v.mp4" →
      (ensureThumbnailExists md5Fix safeJoinFix genOracleOk
        fsZeroThumbWithVideo "root" "thumbs" "v.mp4"
        (some "PH")).2.size (thumbPathEnsure md5Fix "thumbs" "v.mp4") =
          genOracleOk.pngSize ∧
      0 < (ensureThumbnailExists md5Fix safeJoinFix genOracleOk
        fsZeroThumbWithVideo "root" "thumbs" "v.mp4"
        (some "PH")).2.size (thumbPathEnsure md5Fix "thumbs" "v.mp4")) :=
  claim_C7_amended md5Fix safeJoinFix genOracleOk fsZeroThumbWithVideo
    "root" "thumbs" "v.mp4" (some "PH") "root/v.mp4" (by decide) (by decide)
    (by decide) (by decide) (by decide) (by decide) (by decide)

/-- C3: with a non-empty configured placeholder, every `serve_thumbnail`
request either serves a file or answers with the placeholder — every abort
raised inside the handler's `try` (bad extension, traversal rejection,
missing media, failed generation) is caught by its final handler, which
returns the placeholder; no placeholder-less error response is produced. -/
theorem claim_C3_placeholder_fallback (md5hex : String → String)
    (getSafePath : String → String → Option String) (o : GenOracle)
    (fs : FS)
    (mediaRoot thumbnailDir placeholderUrl filename : String)
    (hph : placeholderUrl ≠ "") :
    (∃ p, (serveThumbnail md5hex getSafePath o fs mediaRoot
        thumbnailDir placeholderUrl filename).1 = .file p) ∨
    (serveThumbnail md5hex getSafePath o fs mediaRoot thumbnailDir
        placeholderUrl filename).1 = .body placeholderUrl := by
  by_cases h1 : validateMediaExtension filename = false
  · right
    simp [serveThumbnail, h1, hph]
  · rcases hg : getSafePath mediaRoot filename with _ | mediaFilePath
    · right
      simp [serveThumbnail, h1, hg, hph]
    · by_cases h2 : mediaFilePath = ""
      · right
        simp [serveThumbnail, h1, hg, h2, hph]
      · by_cases h3 :
            fs.pathExists (thumbPathServe md5hex thumbnailDir filename) =
              true ∧
            0 < fs.size (thumbPathServe md5hex thumbnailDir filename)
        · left
          exact ⟨thumbPathServe md5hex thumbnailDir filename,
            by simp [serveThumbnail, h1, hg, h2, h3]⟩
        · by_cases h4 : fs.pathExists mediaFilePath = false
          · right
            simp [serveThumbnail, h1, hg, h2, h3, h4, hph]
          · rcases he : ensureThumbnailExists md5hex getSafePath o
                fs mediaRoot thumbnailDir filename (some placeholderUrl)
              with ⟨tres, fs2⟩
            by_cases h5 : tres ≠ "" ∧ tres ≠ placeholderUrl ∧
                fs2.pathExists tres = true ∧ 0 < fs2.size tres
            · left
              exact ⟨tres,
                by simp [serveThumbnail, h1, hg, h2, h3, h4, he, h5]⟩
            · right
              simp [serveThumbnail, h1, hg, h2, h3, h4, he, h5, hph]

/-- C3 witness: a request whose thumbnail cannot be produced (invalid
extension, so every later stage is unreachable) answers with the
placeholder. -/
theorem claim_C3_placeholder_fallback_witness :
    (∃ p, (serveThumbnail md5Fix safeJoinFix genOracleOk
        fsZeroThumbNoVideo "root" "thumbs" "PH" "x.txt").1 = .file p) ∨
    (serveThumbnail md5Fix safeJoinFix genOracleOk fsZeroThumbNoVideo
        "root" "thumbs" "PH" "x.txt").1 = .body "PH" :=
  claim_C3_placeholder_fallback md5Fix safeJoinFix genOracleOk
    fsZeroThumbNoVideo "root" "thumbs" "PH" "x.txt" (by decide)
